import Mathlib

/-!
Verification of the cookie-based session synchronization core of
`amplify-astro-adapter`.

The development shallowly embeds:
* the payload codec (`sealData` / `unsealData` from `iron-session`, which is an
  external dependency; it is modelled from the specification's description of
  the sealed-payload envelope),
* the process-wide session store and the storage driver
  (`src/packages/amplify-astro-adapter/src/session-driver.ts`),
* the boundary reconciler middleware variants
  (`src/packages/amplify-astro-adapter/src/middleware.ts`,
  `src/unnamed/part_001`, `src/unnamed/part_002`).

Conventions of the embedding:
* JavaScript timestamps (`Date.now()`) are natural numbers of milliseconds.
* A cookie value read with `context.cookies.get(...)?.value` is modelled as an
  `Option`; `none` covers both "cookie absent" and "cookie empty string",
  matching the JavaScript truthiness tests in the source.
* The `Map` session store is modelled as a function from session id to an
  optional entry.
* Fallible operations return `Option` / `Except`; a `try { ... } catch` that
  swallows the error becomes a total function returning `none` in the
  exceptional cases.
-/

namespace AmplifyAdapter

/-! ## Payload codec

Modelled from the spec: the codec itself is `iron-session`'s
`sealData` / `unsealData`, an external library whose source is not part of this
repository.  Per spec section 3, a sealed payload is an envelope
`{ value, expiresAt }` that is integrity- and confidentiality-protected under a
symmetric password; per section 4.1, `seal` stamps `expiresAt = now + ttl` and
`unseal` fails closed (`none`) on authentication failure, malformed envelope or
expiry.  A stored payload string is therefore one of: the empty string
(tombstone), a well-formed sealed envelope, or any other (malformed) string. -/

inductive Payload where
  | empty : Payload
  | sealedEnv (value : String) (password : String) (expiresAt : Nat) : Payload
  | malformed (raw : String) : Payload
deriving DecidableEq

/-- JavaScript truthiness of the stored payload string: only the empty string
is falsy. -/
def Payload.isTruthy : Payload → Bool
  | Payload.empty => false
  | _ => true

/-- Modelled from the spec (section 4.1): `seal(value, password, ttlSeconds)`
wraps `value` in an envelope carrying the expiry timestamp
`now + ttlSeconds` (milliseconds), protected under `password`. -/
def sealData (value password : String) (ttlSeconds : Nat) (now : Nat) : Payload :=
  Payload.sealedEnv value password (now + ttlSeconds * 1000)

/-- Modelled from the spec (sections 3 and 4.1): unsealing checks the
authenticating password and the envelope's own `expiresAt`; any authentication
failure, malformed envelope, or expired envelope yields `none`, never an
exception. -/
def unsealData (pl : Payload) (password : String) (now : Nat) : Option String :=
  match pl with
  | Payload.sealedEnv v p exp => if p = password ∧ now ≤ exp then some v else none
  | _ => none

/-- The cases in which unsealing a stored payload fails: malformed or empty
payload, wrong password, or expired envelope. -/
def unsealFails (pl : Payload) (password : String) (now : Nat) : Prop :=
  match pl with
  | Payload.sealedEnv _ p exp => p ≠ password ∨ exp < now
  | _ => True

/-! ## Cross-request buffer (session-driver.ts lines 44-63) -/

/-- `type SessionStoreEntry = { data: string; dirty: boolean; timestamp: number }`
(session-driver.ts line 44). -/
structure SessionStoreEntry where
  data : Payload
  dirty : Bool
  timestamp : Nat
deriving DecidableEq

/-- The process-wide `sessionStore` Map (session-driver.ts line 46), modelled
as a lookup function from session id to optional entry. -/
abbrev SessionStore := String → Option SessionStoreEntry

/-- `sessionStore.set(id, entry)`. -/
def storeSet (s : SessionStore) (id : String) (entry : SessionStoreEntry) : SessionStore :=
  fun k => if k = id then some entry else s k

/-- `sessionStore.delete(id)`. -/
def storeDelete (s : SessionStore) (id : String) : SessionStore :=
  fun k => if k = id then none else s k

/-- A store with no entries. -/
def emptyStore : SessionStore := fun _ => none

/-- `const SESSION_STORE_TTL_MS = 5 * 60 * 1000` (session-driver.ts line 50). -/
def SESSION_STORE_TTL_MS : Nat := 5 * 60 * 1000

/-- `cleanupSessionStore()` (session-driver.ts lines 56-63): delete every entry
with `now - entry.timestamp > SESSION_STORE_TTL_MS`.  (In JavaScript a future
timestamp makes `now - entry.timestamp` negative, hence not greater than the
TTL; truncated `Nat` subtraction gives `0` there, with the same outcome.) -/
def cleanupSessionStore (s : SessionStore) (now : Nat) : SessionStore :=
  fun k =>
    match s k with
    | some entry => if now - entry.timestamp > SESSION_STORE_TTL_MS then none else some entry
    | none => none

/-! ## Driver configuration (session-driver.ts lines 68-196) -/

/-- User-facing `CookieSetOptions` (session-driver.ts lines 68-75); every field
is optional. -/
structure CookieSetOptions where
  secure : Option Bool := none
  sameSite : Option String := none
  httpOnly : Option Bool := none
  path : Option String := none
  domain : Option String := none
  maxAge : Option Nat := none
deriving DecidableEq

/-- `CookieSessionDriverOptions` (session-driver.ts lines 80-97).  A `none`
password also models the JavaScript-falsy empty string, which the source
treats as absent. -/
structure CookieSessionDriverOptions where
  password : Option String := none
  ttl : Option Nat := none
  cookieOptions : CookieSetOptions := {}

/-- Cookie options after merging with `DEFAULTS` (session-driver.ts
lines 99-115): `secure`/`sameSite`/`httpOnly`/`path` always resolved,
`domain`/`maxAge` still optional. -/
structure ResolvedCookieOptions where
  secure : Bool
  sameSite : String
  httpOnly : Bool
  path : String
  domain : Option String
  maxAge : Option Nat
deriving DecidableEq

/-- `ResolvedConfig` (session-driver.ts lines 99-104). -/
structure ResolvedConfig where
  password : String
  ttl : Nat
  cookieOptions : ResolvedCookieOptions
deriving DecidableEq

/-- The password-resolution chain of `createCookieSessionDriver`
(session-driver.ts lines 173-189): explicit option, else the
`AMPLIFY_SESSION_PASSWORD` environment variable, else the derived development
fallback (in the source, a 64-hex-character sha256 digest of the project path;
here a parameter).  Empty strings are JavaScript-falsy and fall through. -/
def resolvePassword (optPassword envPassword : Option String) (devFallback : String) : String :=
  let fromOpt := optPassword.getD ""
  let fromEnv := if fromOpt = "" then envPassword.getD "" else fromOpt
  if fromEnv = "" then devFallback else fromEnv

/-- The construction-failure message (session-driver.ts line 192). -/
def sessionPasswordError : String :=
  "amplify-astro-adapter: session password must be at least 32 characters long."

/-- `createCookieSessionDriver` (session-driver.ts lines 162-196): merge the
options with the defaults, resolve the password, and throw at construction
when the resolved password is shorter than 32 characters.  The thrown error is
modelled as `Except.error`; on success the resolved configuration is produced
(the source additionally stores it in `resolvedConfig` and returns the driver
closed over it). -/
def createCookieSessionDriver (options : CookieSessionDriverOptions)
    (envPassword : Option String) (devFallback : String) : Except String ResolvedConfig :=
  let password := resolvePassword options.password envPassword devFallback
  if password.length < 32 then
    Except.error sessionPasswordError
  else
    Except.ok
      { password := password
        ttl := options.ttl.getD 604800
        cookieOptions :=
          { secure := options.cookieOptions.secure.getD true
            sameSite := options.cookieOptions.sameSite.getD "lax"
            httpOnly := options.cookieOptions.httpOnly.getD true
            path := options.cookieOptions.path.getD "/"
            domain := options.cookieOptions.domain
            maxAge := options.cookieOptions.maxAge } }

/-! ## Driver operations (session-driver.ts lines 198-253) -/

/-- `hasItem(sessionId)` (lines 201-203): `sessionStore.has(sessionId)`. -/
def hasItem (s : SessionStore) (sessionId : String) : Bool :=
  (s sessionId).isSome

/-- `getItem(sessionId)` (lines 205-220): look up the entry; if absent return
`null`; otherwise unseal its data, returning the inner value, with the
`try`/`catch` that maps any unseal failure to `null` modelled by the total
`unseal` returning `none`. -/
def getItem (config : ResolvedConfig) (s : SessionStore) (sessionId : String)
    (now : Nat) : Option String :=
  match s sessionId with
  | none => none
  | some entry => unsealData entry.data config.password now

/-- `setItem(sessionId, value)` (lines 222-233): seal the value and store
`{ data: sealed, dirty: true, timestamp: Date.now() }`. -/
def setItem (config : ResolvedConfig) (s : SessionStore) (sessionId value : String)
    (now : Nat) : SessionStore :=
  storeSet s sessionId
    { data := sealData value config.password config.ttl now, dirty := true, timestamp := now }

/-- `removeItem(sessionId)` (lines 235-238): store the tombstone
`{ data: '', dirty: true, timestamp: Date.now() }`. -/
def removeItem (s : SessionStore) (sessionId : String) (now : Nat) : SessionStore :=
  storeSet s sessionId { data := Payload.empty, dirty := true, timestamp := now }

/-- `getKeys()` (lines 240-243): cookie-based sessions do not support listing
keys; always the empty list, whatever the store holds. -/
def getKeys (_s : SessionStore) : List String :=
  []

/-- `clear()` (lines 245-247): `sessionStore.clear()`. -/
def clearStore (_s : SessionStore) : SessionStore :=
  fun _ => none

/-! ## Boundary reconciler: shared pieces -/

/-- `const SESSION_DATA_COOKIE = 'astro-session-data'`. -/
def SESSION_DATA_COOKIE : String := "astro-session-data"

/-- JavaScript truthiness of an optional cookie payload:
`context.cookies.get(name)?.value` is falsy if absent or the empty string. -/
def cookieTruthy : Option Payload → Bool
  | none => false
  | some p => p.isTruthy

/-- `entry?.dirty` on an optional store entry. -/
def entryDirty : Option SessionStoreEntry → Bool
  | some entry => entry.dirty
  | none => false

/-- `config?.ttl ?? 604800`. -/
def cfgTtl : Option ResolvedConfig → Nat
  | some c => c.ttl
  | none => 604800

/-- `cookieOptions?.path ?? '/'`. -/
def cfgPath : Option ResolvedConfig → String
  | some c => c.cookieOptions.path
  | none => "/"

/-- `cookieOptions?.httpOnly !== false` (for a resolved config the field is a
plain boolean, so this is the field itself; with no config it is `true`). -/
def cfgHttpOnly : Option ResolvedConfig → Bool
  | some c => c.cookieOptions.httpOnly
  | none => true

/-- `cookieOptions?.secure ?? isSecure`. -/
def cfgSecure (config : Option ResolvedConfig) (reqSecure : Bool) : Bool :=
  match config with
  | some c => c.cookieOptions.secure
  | none => reqSecure

/-- `cookieOptions?.sameSite ?? 'Lax'` as used in the header-string builders. -/
def cfgSameSite : Option ResolvedConfig → String
  | some c => c.cookieOptions.sameSite
  | none => "Lax"

/-- `cookieOptions?.domain`. -/
def cfgDomainOpt : Option ResolvedConfig → Option String
  | some c => c.cookieOptions.domain
  | none => none

/-- `hostname === 'localhost' || hostname === '127.0.0.1'`. -/
def isLocalhostName (hostname : String) : Bool :=
  hostname = "localhost" || hostname = "127.0.0.1"

/-- `hostname.replace(/^www\., '')` as written in middleware.ts line 142 and
part_002 line 92: drop a leading `www.` if present. -/
def stripWww (hostname : String) : String :=
  if hostname.data.take 4 = ['w', 'w', 'w', '.'] then String.mk (hostname.data.drop 4)
  else hostname

/-- `const cookieDomain = isLocalhost ? undefined : '.' + hostname.replace(/^www\., '')`
(middleware.ts lines 140-142, part_002 lines 89-92).  The configured
`cookieOptions.domain` is not consulted on this path. -/
def deferredCookieDomain (hostname : String) : Option String :=
  if isLocalhostName hostname then none
  else some ("." ++ stripWww hostname)

/-- The `cookieParts` attribute list shared by the header-string emissions
(middleware.ts lines 144-154, part_002 lines 94-104, and the handler's
`injectSessionCookieIfNeeded`): `Path`, `Max-Age`, conditional `HttpOnly`,
conditional `Secure`, `SameSite`, optional `Domain`, with falsy (empty) parts
filtered out.  The leading `name=value` pair is kept structured separately
because the sealed payload is modelled algebraically. -/
def cookieHeaderAttrs (config : Option ResolvedConfig) (reqSecure : Bool)
    (domain : Option String) : List String :=
  ([ "Path=" ++ cfgPath config,
     "Max-Age=" ++ toString (cfgTtl config),
     if cfgHttpOnly config then "HttpOnly" else "",
     if cfgSecure config reqSecure then "Secure" else "",
     "SameSite=" ++ cfgSameSite config,
     match domain with
     | some d => "Domain=" ++ d
     | none => "" ]).filter (fun attr => attr != "")

/-- A `Set-Cookie` header appended to a `Response`: the cookie name, its
payload value, and the attribute parts as built by the source. -/
structure CookieHeader where
  name : String
  value : Payload
  attrs : List String
deriving DecidableEq

/-- The slice of a `Response` the reconciler observes and produces: the status
and the appended `Set-Cookie` headers. -/
structure Resp where
  status : Nat
  setCookieHeaders : List CookieHeader
deriving DecidableEq

/-- A cookie operation performed through `context.cookies` (the cookie-jar
path used by middleware.ts lines 43-59 and part_001 lines 84-102). -/
inductive CookieOp where
  | setCookie (name : String) (value : Payload) (httpOnly secure : Bool)
      (sameSite path : String) (domain : Option String) (maxAge : Nat) : CookieOp
  | deleteCookie (name : String) (path : String) (domain : Option String) : CookieOp
deriving DecidableEq

/-! ## Boundary reconciler: middleware.ts deferred-sync variant (lines 93-171) -/

/-- Result of the middleware `before` phase: the updated store and the
`needsCookieSync` flag. -/
structure BeforeResult where
  store : SessionStore
  needsCookieSync : Bool

/-- The `before` phase of the deferred-sync middleware (middleware.ts
lines 97-115): if there is a session id and a dirty in-memory entry but no
session-data cookie, mark deferred sync; if there is no in-memory entry but a
cookie exists, seed the store from the cookie with `dirty: false`; then run
`cleanupSessionStore()`. -/
def mwBefore (store : SessionStore) (sessionId : Option String)
    (dataCookie : Option Payload) (now : Nat) : BeforeResult :=
  let stepOne : BeforeResult :=
    match sessionId with
    | none => { store := store, needsCookieSync := false }
    | some sid =>
      if entryDirty (store sid) && !cookieTruthy dataCookie then
        { store := store, needsCookieSync := true }
      else if (store sid).isNone && cookieTruthy dataCookie then
        match dataCookie with
        | some c =>
          { store := storeSet store sid { data := c, dirty := false, timestamp := now }
            needsCookieSync := false }
        | none => { store := store, needsCookieSync := false }
      else
        { store := store, needsCookieSync := false }
  { store := cleanupSessionStore stepOne.store now
    needsCookieSync := stepOne.needsCookieSync }

/-- The deferred-sync `after` phase of middleware.ts (lines 132-170): when the
`before` phase marked `needsCookieSync` and a session id is present, look up
the entry; if its data is truthy, append a `Set-Cookie` header for the
session-data cookie (domain computed from the hostname alone) and mark the
entry clean (`{ ...entry, dirty: false }`, timestamp unchanged); otherwise
return the response unchanged. -/
def mwAfterDeferred (store : SessionStore) (response : Resp) (needsCookieSync : Bool)
    (sessionId : Option String) (config : Option ResolvedConfig)
    (hostname : String) (reqSecure : Bool) : SessionStore × Resp :=
  match sessionId with
  | some sid =>
    if needsCookieSync then
      match store sid with
      | some entry =>
        if entry.data.isTruthy then
          let header : CookieHeader :=
            { name := SESSION_DATA_COOKIE
              value := entry.data
              attrs := cookieHeaderAttrs config reqSecure (deferredCookieDomain hostname) }
          (storeSet store sid { entry with dirty := false },
           { response with setCookieHeaders := response.setCookieHeaders ++ [header] })
        else (store, response)
      | none => (store, response)
    else (store, response)
  | none => (store, response)

/-! ## Boundary reconciler: part_002 redirect bounded-wait variant -/

/-- The bounded poll loop of part_002 (lines 69-77): read the entry after an
immediate tick, then re-read up to 20 more times while it is not dirty.  The
snapshots list holds the store as observed at each successive poll; the result
is the first dirty observation, or the last observation once the budget is
exhausted. -/
def pollEntry (sid : String) (snapshots : List SessionStore) : Option SessionStoreEntry :=
  match snapshots with
  | [] => none
  | snap :: rest =>
    let observed := snap sid
    if entryDirty observed then observed
    else
      match rest with
      | [] => observed
      | _ :: _ => pollEntry sid rest

/-- The `after` phase of part_002 (lines 62-120): for a 301/302 response with
a session id, poll for a dirty entry within the bounded wait budget; if a
dirty, truthy entry shows up in time, append the session-data `Set-Cookie`
header (leaving the record dirty, per the source's deliberate fallback
comment); otherwise let the response go out unchanged. -/
def part002RedirectAfter (response : Resp) (finalSessionId : Option String)
    (snapshots : List SessionStore) (config : Option ResolvedConfig)
    (hostname : String) (reqSecure : Bool) : Resp :=
  match finalSessionId with
  | none => response
  | some sid =>
    if response.status = 302 ∨ response.status = 301 then
      match pollEntry sid snapshots with
      | some entry =>
        if entry.dirty && entry.data.isTruthy then
          let header : CookieHeader :=
            { name := SESSION_DATA_COOKIE
              value := entry.data
              attrs := cookieHeaderAttrs config reqSecure (deferredCookieDomain hostname) }
          { response with setCookieHeaders := response.setCookieHeaders ++ [header] }
        else response
      | none => response
    else response

/-! ## Boundary reconciler: part_001 cookie-jar variant -/

/-- The domain resolution of part_001 (lines 76-81): an explicitly configured
domain wins; otherwise `undefined` for localhost and `'.' + hostname` (without
stripping `www.`) for other hosts. -/
def part001Domain (config : Option ResolvedConfig) (hostname : String) : Option String :=
  match cfgDomainOpt config with
  | some d => some d
  | none =>
    if isLocalhostName hostname then none
    else some ("." ++ hostname)

/-- The `after` phase of part_001 (lines 54-104): with a (possibly fresh)
session id, write the session-data cookie when the entry is dirty or deferred
sync was marked for the same id; non-empty data is written with the resolved
attributes and the entry marked clean, empty data (a tombstone) triggers a
cookie deletion and removal of the entry from the store. -/
def part001After (store : SessionStore) (finalSessionId beforeSessionId : Option String)
    (needsCookieSync : Bool) (config : Option ResolvedConfig)
    (hostname : String) (reqSecure : Bool) (now : Nat) : SessionStore × List CookieOp :=
  match finalSessionId with
  | none => (store, [])
  | some fid =>
    match store fid with
    | none => (store, [])
    | some entry =>
      if entry.dirty || (needsCookieSync && beforeSessionId == some fid) then
        if entry.data.isTruthy then
          (storeSet store fid { entry with dirty := false, timestamp := now },
           [CookieOp.setCookie SESSION_DATA_COOKIE entry.data
              (cfgHttpOnly config) (cfgSecure config reqSecure)
              (match config with
               | some c => c.cookieOptions.sameSite
               | none => "lax")
              (cfgPath config) (part001Domain config hostname) (cfgTtl config)])
        else
          (storeDelete store fid,
           [CookieOp.deleteCookie SESSION_DATA_COOKIE (cfgPath config) (cfgDomainOpt config)])
      else (store, [])

/-! ## Clean-record invariant: operations as a step relation

For the invariant claim the store-mutating operations of all code paths are
collected into one step relation over a system state that pairs the process
store with a ghost view of the client's session-data cookie (last payload
confirmed written to, or read from, the browser), keyed by session id. -/

/-- The client-held session-data cookie payloads, keyed by session id. -/
abbrev ClientCookies := String → Option Payload

/-- Record a confirmed cookie write for one session id. -/
def clientSet (c : ClientCookies) (id : String) (p : Payload) : ClientCookies :=
  fun k => if k = id then some p else c k

/-- Record a confirmed cookie deletion for one session id. -/
def clientDelete (c : ClientCookies) (id : String) : ClientCookies :=
  fun k => if k = id then none else c k

/-- The process store together with the client's confirmed cookie state. -/
structure SyncState where
  store : SessionStore
  client : ClientCookies

/-- One store-mutating operation of the source, as a transition on
`SyncState`.  Each constructor is one code path:

* `setItemStep` / `removeItemStep` / `clearStep` — the driver operations
  (session-driver.ts lines 222-247);
* `cleanupStep` — `cleanupSessionStore` (lines 56-63);
* `seedStep` — the `before`-phase seeding of the store from the incoming
  cookie with `dirty: false` (middleware.ts lines 22-27 and 108-111,
  part_001 lines 45-48, part_002 lines 32-42); the seeded payload is by
  construction the client's own cookie value;
* `emitStep` — a `Set-Cookie` write of the entry's data followed by marking
  the entry clean with a fresh timestamp (part_001 lines 84-94, the handler's
  `injectSessionCookieIfNeeded` lines 392-408);
* `emitDeferredStep` — the deferred-sync emission that marks the entry clean
  without touching the timestamp (middleware.ts lines 144-160);
* `emitRedirectStep` — the part_002 redirect emission that appends the header
  but deliberately leaves the record dirty (part_002 lines 94-118);
* `emitDropStep` — middleware.ts lines 43-52 and 62: cookie written, then the
  entry deleted from the store;
* `tombstoneStep` — the tombstone path: cookie-deletion header, entry removed
  (part_001 lines 95-102, middleware.ts lines 53-59 and 62). -/
inductive SyncStep : SyncState → SyncState → Prop where
  | setItemStep (s : SyncState) (config : ResolvedConfig) (id value : String) (now : Nat) :
      SyncStep s { store := setItem config s.store id value now, client := s.client }
  | removeItemStep (s : SyncState) (id : String) (now : Nat) :
      SyncStep s { store := removeItem s.store id now, client := s.client }
  | clearStep (s : SyncState) :
      SyncStep s { store := clearStore s.store, client := s.client }
  | cleanupStep (s : SyncState) (now : Nat) :
      SyncStep s { store := cleanupSessionStore s.store now, client := s.client }
  | seedStep (s : SyncState) (id : String) (c : Payload) (now : Nat) :
      s.client id = some c →
      SyncStep s
        { store := storeSet s.store id { data := c, dirty := false, timestamp := now }
          client := s.client }
  | emitStep (s : SyncState) (id : String) (entry : SessionStoreEntry) (now : Nat) :
      s.store id = some entry → entry.dirty = true → entry.data.isTruthy = true →
      SyncStep s
        { store := storeSet s.store id { entry with dirty := false, timestamp := now }
          client := clientSet s.client id entry.data }
  | emitDeferredStep (s : SyncState) (id : String) (entry : SessionStoreEntry) :
      s.store id = some entry → entry.data.isTruthy = true →
      SyncStep s
        { store := storeSet s.store id { entry with dirty := false }
          client := clientSet s.client id entry.data }
  | emitRedirectStep (s : SyncState) (id : String) (entry : SessionStoreEntry) :
      s.store id = some entry → entry.dirty = true → entry.data.isTruthy = true →
      SyncStep s { store := s.store, client := clientSet s.client id entry.data }
  | emitDropStep (s : SyncState) (id : String) (entry : SessionStoreEntry) :
      s.store id = some entry → entry.dirty = true → entry.data.isTruthy = true →
      SyncStep s
        { store := storeDelete s.store id, client := clientSet s.client id entry.data }
  | tombstoneStep (s : SyncState) (id : String) (entry : SessionStoreEntry) :
      s.store id = some entry → entry.dirty = true → entry.data.isTruthy = false →
      SyncStep s
        { store := storeDelete s.store id, client := clientDelete s.client id }

/-- The invariant of spec section 3: a store record with `dirty = false`
reflects exactly the client's confirmed session-data cookie payload for that
session id. -/
def CleanReflectsClient (s : SyncState) : Prop :=
  ∀ id entry, s.store id = some entry → entry.dirty = false → s.client id = some entry.data

/-! ## Specification-side definition for the domain-attribute comparison -/

/-- The session-data cookie's domain attribute as the specification's words
describe it (spec section 4.5): `undefined` (host-only) for
`localhost`/`127.0.0.1`, otherwise the hostname in shared-subdomain form
(leading dot, `www.` prefix stripped) unless a domain is explicitly
configured.  Stated from the spec, for comparison with the code's
`deferredCookieDomain`. -/
def specClaimedDomain (configDomain : Option String) (hostname : String) : Option String :=
  match configDomain with
  | some d => some d
  | none =>
    if isLocalhostName hostname then none
    else some ("." ++ stripWww hostname)

/-! ## Concrete fixtures for witnesses and counterexamples -/

/-- A 32-character password. -/
def passwordW : String := "0123456789abcdef0123456789abcdef"

/-- A resolved configuration with default cookie options and a 1-second TTL. -/
def cfgW : ResolvedConfig :=
  { password := passwordW
    ttl := 1
    cookieOptions :=
      { secure := true, sameSite := "lax", httpOnly := true, path := "/"
        domain := none, maxAge := none } }

/-- A resolved configuration with an explicitly configured cookie domain. -/
def cfgDomainW : ResolvedConfig :=
  { password := passwordW
    ttl := 604800
    cookieOptions :=
      { secure := true, sameSite := "lax", httpOnly := true, path := "/"
        domain := some "custom.example", maxAge := none } }

/-- A stale clean entry last touched at time 0. -/
def staleEntryW : SessionStoreEntry :=
  { data := Payload.empty, dirty := false, timestamp := 0 }

/-- A store holding only the stale entry. -/
def staleStoreW : SessionStore := storeSet emptyStore "sess" staleEntryW

/-- A dirty entry whose payload is a non-empty string. -/
def entryDirtyW : SessionStoreEntry :=
  { data := Payload.malformed "x", dirty := true, timestamp := 0 }

/-- A store holding only the dirty entry under id `sess3`. -/
def storeDirtyW : SessionStore := storeSet emptyStore "sess3" entryDirtyW

/-- A store holding only the dirty entry under id `sess8`. -/
def storeC8W : SessionStore := storeSet emptyStore "sess8" entryDirtyW

/-- A 302 redirect response with no cookie headers yet. -/
def resp302W : Resp := { status := 302, setCookieHeaders := [] }

/-- A plain 200 response with no cookie headers yet. -/
def resp200W : Resp := { status := 200, setCookieHeaders := [] }

/-- The empty system state for the invariant witness. -/
def syncStateW : SyncState := { store := emptyStore, client := fun _ => none }

/-! ## Helper lemmas -/

/-- An entry kept by `cleanupSessionStore` was already in the store. -/
theorem cleanup_sub (s : SessionStore) (now : Nat) (k : String) (entry : SessionStoreEntry)
    (h : cleanupSessionStore s now k = some entry) : s k = some entry := by
  cases hsk : s k with
  | none =>
    simp only [cleanupSessionStore, hsk] at h
    exact h
  | some e =>
    simp only [cleanupSessionStore, hsk] at h
    by_cases hc : now - e.timestamp > SESSION_STORE_TTL_MS
    · rw [if_pos hc] at h; exact absurd h (by simp)
    · rw [if_neg hc] at h; exact h

/-- `cleanupSessionStore` keeps an entry whose age is within the TTL. -/
theorem cleanup_keeps (s : SessionStore) (now : Nat) (id : String) (entry : SessionStoreEntry)
    (h : s id = some entry) (hfresh : now - entry.timestamp ≤ SESSION_STORE_TTL_MS) :
    cleanupSessionStore s now id = some entry := by
  simp only [cleanupSessionStore, h]
  exact if_neg (Nat.not_lt.mpr hfresh)

/-- If every polled snapshot shows a non-dirty (or absent) entry, the bounded
poll loop of part_002 ends on a non-dirty observation. -/
theorem pollEntry_stays_clean (sid : String) (snapshots : List SessionStore)
    (h : ∀ snap ∈ snapshots, entryDirty (snap sid) = false) :
    entryDirty (pollEntry sid snapshots) = false := by
  induction snapshots with
  | nil => rfl
  | cons snap rest ih =>
    have hhead : entryDirty (snap sid) = false := h snap (List.mem_cons_self _ _)
    cases rest with
    | nil => simp [pollEntry, hhead]
    | cons s2 r2 =>
      have htail := ih (fun snap2 hm => h snap2 (List.mem_cons_of_mem _ hm))
      simpa [pollEntry, hhead] using htail

/-! ## Claim theorems -/

/-- C1: for every session id, string value, and driver configuration with a
password of at least 32 characters and a positive TTL, `setItem(id, v)`
followed by `getItem(id)` with no intervening operation, read before the TTL
elapses, returns `v`: the value round-trips through seal/unseal. -/
theorem setItem_getItem_roundtrip (config : ResolvedConfig) (store : SessionStore)
    (sessionId value : String) (now readTime : Nat)
    (hpw : 32 ≤ config.password.length) (httl : 0 < config.ttl)
    (hbefore : readTime ≤ now + config.ttl * 1000) :
    getItem config (setItem config store sessionId value now) sessionId readTime = some value := by
  simp [getItem, setItem, storeSet, sealData, unsealData, hbefore]

/-- Witness for C1 at a concrete 32-character password, TTL 1 second, write at
time 0 and read at time 500ms. -/
theorem setItem_getItem_roundtrip_witness :
    32 ≤ cfgW.password.length ∧ 0 < cfgW.ttl ∧ (500 : Nat) ≤ 0 + cfgW.ttl * 1000 ∧
      getItem cfgW (setItem cfgW emptyStore "sess" "v" 0) "sess" 500 = some "v" :=
  ⟨by decide, by decide, by decide,
    setItem_getItem_roundtrip cfgW emptyStore "sess" "v" 0 500 (by decide) (by decide) (by decide)⟩

/-- C2: `getItem(id)` returns `null` and never throws whenever the stored
entry is absent, or its payload is malformed or empty, sealed under a
different password, or expired (the driver's `try`/`catch` fails closed; in
the embedding `getItem` is a total function into `Option`). -/
theorem getItem_fails_closed (config : ResolvedConfig) (store : SessionStore)
    (sessionId : String) (now : Nat)
    (h : store sessionId = none ∨
      ∃ entry, store sessionId = some entry ∧ unsealFails entry.data config.password now) :
    getItem config store sessionId now = none := by
  rcases h with h | ⟨entry, hlook, hfail⟩
  · simp [getItem, h]
  · simp only [getItem, hlook]
    cases hd : entry.data with
    | empty => simp [unsealData]
    | malformed raw => simp [unsealData]
    | sealedEnv v p exp =>
      rw [hd] at hfail
      simp only [unsealFails] at hfail
      simp only [unsealData]
      rcases hfail with hp | hexp
      · exact if_neg (fun hc => hp hc.1)
      · exact if_neg (fun hc => absurd hc.2 (by omega))

/-- Witness for C2: with no Buffer record for the id, `getItem` returns
`none`. -/
theorem getItem_fails_closed_witness :
    emptyStore "sess" = none ∧ getItem cfgW emptyStore "sess" 0 = none :=
  ⟨rfl, getItem_fails_closed cfgW emptyStore "sess" 0 (Or.inl rfl)⟩

/-- C5: driver construction fails exactly when the resolved password
(explicit option, else environment variable, else derived development
fallback) is shorter than 32 characters; the failure is the construction-time
error, and a successful construction always carries the full resolved
password of at least 32 characters (no weaker mode). -/
theorem createDriver_short_password_fails (options : CookieSessionDriverOptions)
    (envPassword : Option String) (devFallback : String) :
    ((resolvePassword options.password envPassword devFallback).length < 32 ↔
        createCookieSessionDriver options envPassword devFallback =
          Except.error sessionPasswordError) ∧
    (∀ config, createCookieSessionDriver options envPassword devFallback = Except.ok config →
        config.password = resolvePassword options.password envPassword devFallback ∧
          32 ≤ config.password.length) := by
  constructor
  · constructor
    · intro h
      simp [createCookieSessionDriver, h]
    · intro h
      by_cases hlen : (resolvePassword options.password envPassword devFallback).length < 32
      · exact hlen
      · simp [createCookieSessionDriver, hlen] at h
  · intro config h
    by_cases hlen : (resolvePassword options.password envPassword devFallback).length < 32
    · simp [createCookieSessionDriver, hlen] at h
    · simp only [createCookieSessionDriver, if_neg hlen] at h
      injection h with he
      subst he
      exact ⟨rfl, Nat.le_of_not_lt hlen⟩

/-- Witness for C5: an explicit 5-character password makes construction fail
with the password-length error. -/
theorem createDriver_short_password_fails_witness :
    (resolvePassword (some "short") none "").length < 32 ∧
      createCookieSessionDriver { password := some "short" } none "" =
        Except.error sessionPasswordError :=
  ⟨by decide,
    (createDriver_short_password_fails { password := some "short" } none "").1.mp (by decide)⟩

/-- C7: after `cleanupSessionStore` runs at time `now`, every entry with
`now - timestamp` above the five-minute TTL is absent from the store. -/
theorem cleanup_evicts_stale (store : SessionStore) (now : Nat) (sessionId : String)
    (entry : SessionStoreEntry) (hlook : store sessionId = some entry)
    (hstale : now - entry.timestamp > SESSION_STORE_TTL_MS) :
    cleanupSessionStore store now sessionId = none := by
  simp only [cleanupSessionStore, hlook]
  exact if_pos hstale

/-- Witness for C7: an entry last touched at 0 is evicted by a cleanup at
300001 ms (one past the 5-minute TTL). -/
theorem cleanup_evicts_stale_witness :
    staleStoreW "sess" = some staleEntryW ∧
      (300001 : Nat) - staleEntryW.timestamp > SESSION_STORE_TTL_MS ∧
      cleanupSessionStore staleStoreW 300001 "sess" = none :=
  ⟨by decide, by decide,
    cleanup_evicts_stale staleStoreW 300001 "sess" staleEntryW (by decide) (by decide)⟩

/-- C9: `getKeys()` returns the empty sequence for every store, including
non-empty ones. -/
theorem getKeys_always_empty (store : SessionStore) : getKeys store = [] := rfl

/-- C10: immediately after `removeItem(id)`, before any reconciler `after`
phase processes the tombstone, `hasItem(id)` still reports `true` while
`getItem(id)` reports `null` — through `hasItem`, a tombstoned record is
indistinguishable from a live one. -/
theorem removeItem_hasItem_getItem (config : ResolvedConfig) (store : SessionStore)
    (sessionId : String) (now readTime : Nat) :
    hasItem (removeItem store sessionId now) sessionId = true ∧
      getItem config (removeItem store sessionId now) sessionId readTime = none := by
  constructor
  · simp [hasItem, removeItem, storeSet]
  · simp [getItem, removeItem, storeSet, unsealData]

/-- C4: `removeItem(id)` stores a tombstone (empty payload, dirty), and the
boundary `after` phase (part_001) then issues a cookie-deletion operation for
the session-data cookie and leaves no Buffer record for the id. -/
theorem removeItem_after_tombstone (store : SessionStore) (sessionId : String)
    (config : Option ResolvedConfig) (hostname : String) (reqSecure : Bool) (now : Nat) :
    removeItem store sessionId now sessionId =
      some { data := Payload.empty, dirty := true, timestamp := now } ∧
    (part001After (removeItem store sessionId now) (some sessionId) (some sessionId)
        false config hostname reqSecure now).1 sessionId = none ∧
    (part001After (removeItem store sessionId now) (some sessionId) (some sessionId)
        false config hostname reqSecure now).2 =
      [CookieOp.deleteCookie SESSION_DATA_COOKIE (cfgPath config) (cfgDomainOpt config)] := by
  have hlook : removeItem store sessionId now sessionId =
      some { data := Payload.empty, dirty := true, timestamp := now } := by
    simp [removeItem, storeSet]
  refine ⟨hlook, ?_, ?_⟩
  · simp [part001After, hlook, Payload.isTruthy, storeDelete]
  · simp [part001After, hlook, Payload.isTruthy]

/-- C3: when a redirect response's session write becomes visible only after
part_002's bounded wait budget is exhausted (every polled snapshot shows a
non-dirty entry), the session-data cookie is not attached to that response;
the next request's `before` phase (middleware.ts), seeing the dirty Buffer
record and no session-data cookie, marks deferred sync, and that request's
`after` phase emits the cookie — convergence within one extra request. -/
theorem redirect_deferred_sync_converges
    (resp1 resp2 : Resp) (snapshots : List SessionStore) (sid : String)
    (store1 : SessionStore) (entry : SessionStoreEntry)
    (config1 config2 : Option ResolvedConfig) (host1 host2 : String)
    (sec1 sec2 : Bool) (now2 : Nat)
    (hredirect : resp1.status = 302 ∨ resp1.status = 301)
    (hbudget : ∀ snap ∈ snapshots, entryDirty (snap sid) = false)
    (hlen : snapshots.length ≤ 21)
    (hstore : store1 sid = some entry) (hdirty : entry.dirty = true)
    (hdata : entry.data.isTruthy = true)
    (hfresh : now2 - entry.timestamp ≤ SESSION_STORE_TTL_MS) :
    part002RedirectAfter resp1 (some sid) snapshots config1 host1 sec1 = resp1 ∧
    (mwBefore store1 (some sid) none now2).needsCookieSync = true ∧
    (mwAfterDeferred (mwBefore store1 (some sid) none now2).store resp2
        (mwBefore store1 (some sid) none now2).needsCookieSync (some sid)
        config2 host2 sec2).2.setCookieHeaders =
      resp2.setCookieHeaders ++
        [{ name := SESSION_DATA_COOKIE, value := entry.data,
           attrs := cookieHeaderAttrs config2 sec2 (deferredCookieDomain host2) }] := by
  have h1 : part002RedirectAfter resp1 (some sid) snapshots config1 host1 sec1 = resp1 := by
    have hpoll := pollEntry_stays_clean sid snapshots hbudget
    simp only [part002RedirectAfter]
    rw [if_pos hredirect]
    cases hp : pollEntry sid snapshots with
    | none => rfl
    | some e =>
      rw [hp] at hpoll
      simp only [entryDirty] at hpoll
      simp [hpoll]
  have hb : mwBefore store1 (some sid) none now2 =
      { store := cleanupSessionStore store1 now2, needsCookieSync := true } := by
    simp [mwBefore, hstore, entryDirty, hdirty, cookieTruthy]
  have hclean : cleanupSessionStore store1 now2 sid = some entry :=
    cleanup_keeps store1 now2 sid entry hstore hfresh
  refine ⟨h1, ?_, ?_⟩
  · rw [hb]
  · rw [hb]
    simp [mwAfterDeferred, hclean, hdata]

/-- Witness for C3 with a single empty snapshot during the redirect wait and a
dirty record visible by the time the follow-up request runs. -/
theorem redirect_deferred_sync_converges_witness :
    part002RedirectAfter resp302W (some "sess3") [emptyStore] none "example.com" true =
      resp302W ∧
    (mwBefore storeDirtyW (some "sess3") none 0).needsCookieSync = true ∧
    (mwAfterDeferred (mwBefore storeDirtyW (some "sess3") none 0).store resp200W
        (mwBefore storeDirtyW (some "sess3") none 0).needsCookieSync (some "sess3")
        none "example.com" true).2.setCookieHeaders =
      resp200W.setCookieHeaders ++
        [{ name := SESSION_DATA_COOKIE, value := entryDirtyW.data,
           attrs := cookieHeaderAttrs none true (deferredCookieDomain "example.com") }] :=
  redirect_deferred_sync_converges resp302W resp200W [emptyStore] "sess3" storeDirtyW
    entryDirtyW none none "example.com" "example.com" true true 0
    (Or.inl rfl)
    (by intro snap hm; simp only [List.mem_singleton] at hm; subst hm; rfl)
    (by decide) (by decide) (by decide) (by decide) (by decide)

/-- C6: every store-mutating operation of the source preserves the invariant
that a record with `dirty = false` reflects exactly the client's confirmed
session-data cookie payload: records become clean only where a `Set-Cookie`
carrying their payload is emitted, and cookie seeding stores `dirty = false`
with the client's own value. -/
theorem syncStep_preserves_clean_invariant (s t : SyncState)
    (hInv : CleanReflectsClient s) (hStep : SyncStep s t) : CleanReflectsClient t := by
  cases hStep with
  | setItemStep config id value now =>
    intro k entry hlook hclean
    simp only [setItem, storeSet] at hlook
    by_cases hk : k = id
    · rw [if_pos hk] at hlook
      injection hlook with he
      rw [← he] at hclean
      simp at hclean
    · rw [if_neg hk] at hlook
      exact hInv k entry hlook hclean
  | removeItemStep id now =>
    intro k entry hlook hclean
    simp only [removeItem, storeSet] at hlook
    by_cases hk : k = id
    · rw [if_pos hk] at hlook
      injection hlook with he
      rw [← he] at hclean
      simp at hclean
    · rw [if_neg hk] at hlook
      exact hInv k entry hlook hclean
  | clearStep =>
    intro k entry hlook hclean
    simp [clearStore] at hlook
  | cleanupStep now =>
    intro k entry hlook hclean
    exact hInv k entry (cleanup_sub s.store now k entry hlook) hclean
  | seedStep id c now hcl =>
    intro k entry hlook hclean
    simp only [storeSet] at hlook
    by_cases hk : k = id
    · rw [if_pos hk] at hlook
      injection hlook with he
      rw [← he]
      rw [hk]
      exact hcl
    · rw [if_neg hk] at hlook
      exact hInv k entry hlook hclean
  | emitStep id entry0 now hlook0 hdirty0 hdata0 =>
    intro k entry hlook hclean
    simp only [storeSet] at hlook
    by_cases hk : k = id
    · rw [if_pos hk] at hlook
      injection hlook with he
      rw [← he]
      simp [clientSet, hk]
    · rw [if_neg hk] at hlook
      simp only [clientSet, if_neg hk]
      exact hInv k entry hlook hclean
  | emitDeferredStep id entry0 hlook0 hdata0 =>
    intro k entry hlook hclean
    simp only [storeSet] at hlook
    by_cases hk : k = id
    · rw [if_pos hk] at hlook
      injection hlook with he
      rw [← he]
      simp [clientSet, hk]
    · rw [if_neg hk] at hlook
      simp only [clientSet, if_neg hk]
      exact hInv k entry hlook hclean
  | emitRedirectStep id entry0 hlook0 hdirty0 hdata0 =>
    intro k entry hlook hclean
    by_cases hk : k = id
    · rw [hk] at hlook
      rw [hlook0] at hlook
      injection hlook with he
      rw [he] at hdirty0
      rw [hdirty0] at hclean
      exact absurd hclean (by simp)
    · simp only [clientSet, if_neg hk]
      exact hInv k entry hlook hclean
  | emitDropStep id entry0 hlook0 hdirty0 hdata0 =>
    intro k entry hlook hclean
    simp only [storeDelete] at hlook
    by_cases hk : k = id
    · rw [if_pos hk] at hlook
      exact absurd hlook (by simp)
    · rw [if_neg hk] at hlook
      simp only [clientSet, if_neg hk]
      exact hInv k entry hlook hclean
  | tombstoneStep id entry0 hlook0 hdirty0 hdata0 =>
    intro k entry hlook hclean
    simp only [storeDelete] at hlook
    by_cases hk : k = id
    · rw [if_pos hk] at hlook
      exact absurd hlook (by simp)
    · rw [if_neg hk] at hlook
      simp only [clientDelete, if_neg hk]
      exact hInv k entry hlook hclean

/-- Witness for C6: the empty state satisfies the invariant, and one
`removeItem` step preserves it. -/
theorem syncStep_preserves_clean_invariant_witness :
    CleanReflectsClient { store := removeItem emptyStore "sess6" 0, client := fun _ => none } :=
  syncStep_preserves_clean_invariant syncStateW _
    (by intro id entry hlook hclean; exact absurd hlook (by simp [syncStateW, emptyStore]))
    (SyncStep.removeItemStep syncStateW "sess6" 0)

/-- C8 counterexample: the deferred-sync emission of middleware.ts computes
the cookie domain from the hostname alone.  With `cookieOptions.domain`
explicitly configured as `custom.example` and request hostname
`www.example.com`, the emitted header carries `Domain=.example.com`, not the
configured domain that the claim (and spec section 4.5) call for. -/
theorem deferred_domain_ignores_config_counterexample :
    (mwAfterDeferred storeC8W resp200W true (some "sess8")
        (some cfgDomainW) "www.example.com" true).2.setCookieHeaders =
      [{ name := "astro-session-data", value := Payload.malformed "x",
         attrs := ["Path=/", "Max-Age=604800", "HttpOnly", "Secure", "SameSite=lax",
                   "Domain=.example.com"] }] ∧
    specClaimedDomain (cfgDomainOpt (some cfgDomainW)) "www.example.com" =
      some "custom.example" ∧
    "Domain=custom.example" ∉
      ["Path=/", "Max-Age=604800", "HttpOnly", "Secure", "SameSite=lax",
       "Domain=.example.com"] := by
  refine ⟨by decide, by decide, by decide⟩

/-- C8 (amended): when the deferred-sync `after` phase of middleware.ts emits
the session-data cookie, the domain attribute is absent (host-only) when the
request hostname is `localhost` or `127.0.0.1`, and otherwise is the request
hostname with a leading dot prepended and a `www.` prefix stripped — for every
configuration, including one with an explicitly configured domain, which this
path does not consult. -/
theorem deferred_emission_domain_hostname_only (store : SessionStore) (response : Resp)
    (sid : String) (entry : SessionStoreEntry) (config : Option ResolvedConfig)
    (hostname : String) (reqSecure : Bool)
    (hlook : store sid = some entry) (hdata : entry.data.isTruthy = true) :
    (mwAfterDeferred store response true (some sid) config hostname
        reqSecure).2.setCookieHeaders =
      response.setCookieHeaders ++
        [{ name := SESSION_DATA_COOKIE, value := entry.data,
           attrs := cookieHeaderAttrs config reqSecure (deferredCookieDomain hostname) }] ∧
    (isLocalhostName hostname = true → deferredCookieDomain hostname = none) ∧
    (isLocalhostName hostname = false →
      deferredCookieDomain hostname = some ("." ++ stripWww hostname)) := by
  refine ⟨?_, ?_, ?_⟩
  · simp [mwAfterDeferred, hlook, hdata]
  · intro h; simp [deferredCookieDomain, h]
  · intro h; simp [deferredCookieDomain, h]

/-- Witness for the amended C8 at a configured domain and a `www.` host. -/
theorem deferred_emission_domain_hostname_only_witness :
    (mwAfterDeferred storeC8W resp200W true (some "sess8")
        (some cfgDomainW) "www.example.com" true).2.setCookieHeaders =
      resp200W.setCookieHeaders ++
        [{ name := SESSION_DATA_COOKIE, value := entryDirtyW.data,
           attrs := cookieHeaderAttrs (some cfgDomainW) true
             (deferredCookieDomain "www.example.com") }] ∧
    (isLocalhostName "www.example.com" = true →
      deferredCookieDomain "www.example.com" = none) ∧
    (isLocalhostName "www.example.com" = false →
      deferredCookieDomain "www.example.com" =
        some ("." ++ stripWww "www.example.com")) :=
  deferred_emission_domain_hostname_only storeC8W resp200W "sess8" entryDirtyW
    (some cfgDomainW) "www.example.com" true (by decide) (by decide)

end AmplifyAdapter

